import Mathlib

/-!
Shallow embedding of the job-board request handlers in
src/controllers/job-controller.js, together with theorems checking the
specification's statements about them.

Conventions of the embedding:
* A JavaScript optional number field is an `Option Int`; JS truthiness of a
  number (false exactly on 0 and on a missing value) is `truthyNum`, and
  truthiness of a string (false exactly on the empty string) is `truthyStr`.
* The Job collection is a `List Job`; a database write is visible as the list
  returned by a handler.  A handler that rejects returns `HResult.err` and
  returns no new list, so the collection is untouched.
* `next(new ErrorHandler(message, status))` becomes `HResult.err` carrying the
  message and the status; when the source omits the status argument the
  `statusCode` field is `none` (the error middleware, outside this module,
  then falls back to its own default status).
* Mongoose strips `undefined` values from a query filter, so a `findOne`
  filter entry whose payload value is absent constrains nothing (`optMatch`).
* A MongoDB document id is a 24-character hexadecimal string; `findById` on a
  string that is not of that shape throws a CastError, modelled as
  `Except.error`.
-/

namespace JobBucket

/-- JS truthiness of an optional number: a missing value and the number 0 are falsy. -/
def truthyNum : Option Int → Bool
  | none => false
  | some n => !(n == 0)

/-- JS truthiness of a string: only the empty string is falsy. -/
def truthyStr (s : String) : Bool := !(s == "")

/-- The authenticated caller attached to the request: `req.user._id` and `req.user.role`. -/
structure User where
  _id : String
  role : String
deriving DecidableEq, Repr

/-- The create-request body destructured at lines 35-45 of job-controller.js. -/
structure Payload where
  title : String
  description : String
  category : String
  country : String
  city : String
  location : String
  fixedSalary : Option Int
  salaryFrom : Option Int
  salaryTo : Option Int
deriving DecidableEq, Repr

/-- A stored Job document.  The salary fields are optional numbers; `postedBy`
holds the posting user's identifier.  The schema file (src/models/job-model.js)
is not part of the shown source; its fields are those the controller reads and
writes, plus `expired`, which the spec gives default `false`. -/
structure Job where
  _id : String
  title : String
  description : String
  category : String
  country : String
  city : String
  location : String
  fixedSalary : Option Int
  salaryFrom : Option Int
  salaryTo : Option Int
  postedBy : String
  expired : Bool
deriving DecidableEq, Repr

/-- An error passed to `next`: `new ErrorHandler(message, statusCode)`.  A call
that omits the second argument leaves `statusCode` as `none`. -/
structure ErrorHandler where
  message : String
  statusCode : Option Nat
deriving DecidableEq, Repr

/-- Outcome of a handler: a JSON success response with its HTTP status and
body, or an error handed to the error middleware. -/
inductive HResult (α : Type) where
  | ok (status : Nat) (body : α)
  | err (e : ErrorHandler)
deriving DecidableEq, Repr

/-- Whether a handler outcome is a success response. -/
def HResult.isOk {α : Type} : HResult α → Bool
  | .ok _ _ => true
  | .err _ => false

/-- Missing-required-fields test, line 47 of job-controller.js:
`!title || !description || !category || !country || !city || !location`. -/
def missingRequired (b : Payload) : Bool :=
  !truthyStr b.title || !truthyStr b.description || !truthyStr b.category ||
  !truthyStr b.country || !truthyStr b.city || !truthyStr b.location

/-- Salary under-specification test, line 51 of job-controller.js:
`(!salaryFrom || !salaryTo) && !fixedSalary`. -/
def salaryUnderSpecified (b : Payload) : Bool :=
  (!truthyNum b.salaryFrom || !truthyNum b.salaryTo) && !truthyNum b.fixedSalary

/-- Salary over-specification test, line 60 of job-controller.js:
`salaryFrom && salaryTo && fixedSalary`. -/
def salaryOverSpecified (b : Payload) : Bool :=
  truthyNum b.salaryFrom && truthyNum b.salaryTo && truthyNum b.fixedSalary

/-- One entry of the `Job.findOne` filter built at lines 67-77.  Mongoose drops
`undefined` entries from the filter, so an absent payload value constrains
nothing; a present value must be matched exactly. -/
def optMatch (query : Option Int) (stored : Option Int) : Bool :=
  match query with
  | none => true
  | some n => stored == some n

/-- The duplicate-detection filter of lines 67-77: exact match on the six text
fields and on every salary field the payload supplies. -/
def sameTuple (b : Payload) (j : Job) : Bool :=
  j.title == b.title && j.description == b.description &&
  j.category == b.category && j.country == b.country &&
  j.city == b.city && j.location == b.location &&
  optMatch b.fixedSalary j.fixedSalary &&
  optMatch b.salaryFrom j.salaryFrom &&
  optMatch b.salaryTo j.salaryTo

/-- The document built by `Job.create` at lines 81-92: the payload fields plus
`postedBy`; `expired` takes the schema default `false` (per the spec's data
model, the schema file being outside the shown source) and the storage layer
assigns the fresh id `newId`. -/
def Job.create (b : Payload) (postedBy : String) (newId : String) : Job :=
  { _id := newId
    title := b.title
    description := b.description
    category := b.category
    country := b.country
    city := b.city
    location := b.location
    fixedSalary := b.fixedSalary
    salaryFrom := b.salaryFrom
    salaryTo := b.salaryTo
    postedBy := postedBy
    expired := false }

/-- Hexadecimal digit test for document-id validation. -/
def isHexChar (c : Char) : Bool :=
  c.isDigit || (97 ≤ c.toNat && c.toNat ≤ 102) || (65 ≤ c.toNat && c.toNat ≤ 70)

/-- A well-formed MongoDB ObjectId string: 24 hexadecimal characters. -/
def validObjectId (s : String) : Bool :=
  s.length == 24 && s.toList.all isHexChar

/-- The CastError thrown by `Job.findById` on a malformed id.  It carries no
HTTP status of its own. -/
def castError : ErrorHandler := { message := "Cast to ObjectId failed", statusCode := none }

/-- `Job.findById id`: throws a CastError when the id is malformed for the key
format, otherwise returns the document with that id, if any. -/
def findById (id : String) (db : List Job) : Except ErrorHandler (Option Job) :=
  if validObjectId id then Except.ok (db.find? (fun j => j._id == id))
  else Except.error castError

/-- GET list handler, lines 12-18: `Job.find with expired false`, status 200. -/
def getAllJobs (db : List Job) : HResult (List Job) :=
  HResult.ok 200 (db.filter (fun j => !j.expired))

/-- POST create handler, lines 27-99.  `newId` stands for the id the storage
layer assigns to the created document. -/
def postJob (u : User) (b : Payload) (db : List Job) (newId : String) :
    HResult (Job × List Job) :=
  if u.role = "Job Seeker" then
    HResult.err { message := "Job Seeker not allowed to access this resource.", statusCode := some 400 }
  else if missingRequired b then
    HResult.err { message := "Please provide full job details.", statusCode := some 400 }
  else if salaryUnderSpecified b then
    HResult.err { message := "Please either provide fixed salary or ranged salary.", statusCode := some 400 }
  else if salaryOverSpecified b then
    HResult.err { message := "Cannot Enter Fixed and Ranged Salary together.", statusCode := some 400 }
  else
    match db.find? (sameTuple b) with
    | some _ => HResult.err { message := "Job already exist!", statusCode := none }
    | none =>
        let post := Job.create b u._id newId
        HResult.ok 200 (post, db ++ [post])

/-- GET mine handler, lines 108-120: jobs whose `postedBy` is the caller's id. -/
def getMyJobs (u : User) (db : List Job) : HResult (List Job) :=
  if u.role = "Job Seeker" then
    HResult.err { message := "Job Seeker not allowed to access this resource.", statusCode := some 400 }
  else
    HResult.ok 200 (db.filter (fun j => j.postedBy == u._id))

/-- A partial update body: any subset of the Job fields may be supplied.  A
salary entry may itself set the stored field to a value. -/
structure UpdateBody where
  title : Option String
  description : Option String
  category : Option String
  country : Option String
  city : Option String
  location : Option String
  fixedSalary : Option (Option Int)
  salaryFrom : Option (Option Int)
  salaryTo : Option (Option Int)
  expired : Option Bool
deriving DecidableEq, Repr

/-- The update body that sets no field. -/
def UpdateBody.empty : UpdateBody :=
  { title := none, description := none, category := none, country := none
    city := none, location := none, fixedSalary := none, salaryFrom := none
    salaryTo := none, expired := none }

/-- Merging an update body into a stored document, as `findByIdAndUpdate`
does: each supplied field overwrites, the rest keep their stored values. -/
def applyUpdate (b : UpdateBody) (j : Job) : Job :=
  { j with
    title := b.title.getD j.title
    description := b.description.getD j.description
    category := b.category.getD j.category
    country := b.country.getD j.country
    city := b.city.getD j.city
    location := b.location.getD j.location
    fixedSalary := b.fixedSalary.getD j.fixedSalary
    salaryFrom := b.salaryFrom.getD j.salaryFrom
    salaryTo := b.salaryTo.getD j.salaryTo
    expired := b.expired.getD j.expired }

/-- PUT update handler, lines 129-150.  Note the source's swapped messages:
the role rejection says "Opps Job not found!." and the missing-document
rejection says "Job Seeker not allowed to access this resource."; both carry
status 400.  `findByIdAndUpdate` merges the body into the found document and
returns the updated record (ids are unique in the collection). -/
def updateJob (u : User) (id : String) (b : UpdateBody) (db : List Job) :
    HResult (Job × List Job) :=
  if u.role = "Job Seeker" then
    HResult.err { message := "Opps Job not found!.", statusCode := some 400 }
  else
    match findById id db with
    | Except.error e => HResult.err e
    | Except.ok none =>
        HResult.err { message := "Job Seeker not allowed to access this resource.", statusCode := some 400 }
    | Except.ok (some j0) =>
        HResult.ok 200 (applyUpdate b j0,
          db.map (fun j => if j._id == id then applyUpdate b j else j))

/-- DELETE handler, lines 159-174: role check, lookup, then `post.deleteOne`,
which removes the found document (ids are unique in the collection). -/
def deleteJob (u : User) (id : String) (db : List Job) : HResult (List Job) :=
  if u.role = "Job Seeker" then
    HResult.err { message := "Job Seeker not allowed to access this resource.", statusCode := some 400 }
  else
    match findById id db with
    | Except.error e => HResult.err e
    | Except.ok none => HResult.err { message := "Opps Job not found!.", statusCode := some 400 }
    | Except.ok (some _) => HResult.ok 200 (db.filter (fun j => !(j._id == id)))

/-- GET single handler, lines 183-195: the `try` block turns the CastError of
a malformed id into a 404 "Invalid ID / CastError!"; an absent document gives
404 "Job not found!". -/
def getSingleJob (id : String) (db : List Job) : HResult Job :=
  match findById id db with
  | Except.error _ => HResult.err { message := "Invalid ID / CastError!", statusCode := some 404 }
  | Except.ok none => HResult.err { message := "Job not found!", statusCode := some 404 }
  | Except.ok (some j) => HResult.ok 200 j

/-- A JavaScript number: either NaN or an integer (the values arising here are
integral millisecond counts). -/
inductive JNum where
  | nan : JNum
  | int (n : Int) : JNum
deriving DecidableEq, Repr

/-- JS multiplication: NaN propagates. -/
def JNum.mul : JNum → JNum → JNum
  | JNum.int a, JNum.int b => JNum.int (a * b)
  | _, _ => JNum.nan

/-- JS addition: NaN propagates. -/
def JNum.add : JNum → JNum → JNum
  | JNum.int a, JNum.int b => JNum.int (a + b)
  | _, _ => JNum.nan

/-- A JS Date value: `new Date(t)` with a NaN argument is an Invalid Date. -/
inductive JDate where
  | invalid : JDate
  | valid (ms : Int) : JDate
deriving DecidableEq, Repr

/-- `new Date(t)` on a JS number. -/
def jsDate : JNum → JDate
  | JNum.nan => JDate.invalid
  | JNum.int n => JDate.valid n

/-- The JS values reachable from the `process` object here: the `env` map
(a string-to-string table) or `undefined` for a property that does not exist. -/
inductive JSVal where
  | undef : JSVal
  | envObj (entries : List (String × String)) : JSVal
deriving DecidableEq, Repr

/-- Property access on the Node `process` object.  Its only property this
module could meaningfully read is `env`; any other property name (in
particular `envCOOKIE_EXPIRE`, as written at line 212 of job-controller.js
instead of `env.COOKIE_EXPIRE`) yields `undefined`. -/
def processGet (env : List (String × String)) (prop : String) : JSVal :=
  if prop = "env" then JSVal.envObj env else JSVal.undef

/-- Numeric coercion of a JS value: `undefined` coerces to NaN, and so does a
plain object such as `process.env`. -/
def JSVal.toNum : JSVal → JNum
  | JSVal.undef => JNum.nan
  | JSVal.envObj _ => JNum.nan

/-- Modelled from the spec: `user.getJWTtoken` lives in the User model, which
is outside the shown source; it "generates a signed session token for that
user".  Signing is abstracted as a token derived from the user's identifier. -/
def getJWTtoken (u : User) : String := "signed." ++ u._id

/-- The cookie options object built at lines 210-215.  The source stores the
date under a key named `expiresIn` (Express's cookie API reads `expires`;
the field name here mirrors the source). -/
structure CookieOptions where
  expiresIn : JDate
  httpOnly : Bool
deriving DecidableEq, Repr

/-- One `res.cookie(name, value, options)` call. -/
structure SetCookie where
  name : String
  value : String
  options : CookieOptions
deriving DecidableEq, Repr

/-- The full response of the cookie helper: HTTP status, the set cookie, and
the JSON body fields. -/
structure TokenResponse where
  status : Nat
  cookie : SetCookie
  success : Bool
  user : User
  message : String
  token : String
deriving DecidableEq, Repr

/-- Cookie helper, lines 205-223.  `env` is the process environment and `now`
is `Date.now()`.  The expiry is computed from
`process.envCOOKIE_EXPIRE * 24 * 60 * 60 * 1000` exactly as written in the
source: a property access on `process` under the name `envCOOKIE_EXPIRE`. -/
def sendResponseToken (user : User) (statusCode : Nat) (message : String)
    (env : List (String × String)) (now : Int) : TokenResponse :=
  let token := getJWTtoken user
  let options : CookieOptions :=
    { expiresIn := jsDate (JNum.add (JNum.int now)
        (JNum.mul (JNum.mul (JNum.mul
          (JNum.mul ((processGet env "envCOOKIE_EXPIRE").toNum) (JNum.int 24))
          (JNum.int 60)) (JNum.int 60)) (JNum.int 1000)))
      httpOnly := true }
  { status := statusCode
    cookie := { name := "token", value := token, options := options }
    success := true
    user := user
    message := message
    token := token }

/-- Stated from the spec's words, for comparison with the code: "exactly one
salary representation is present — either fixedSalary alone, or both
salaryFrom and salaryTo, never both forms, never neither". -/
def specSalaryInvariant (j : Job) : Bool :=
  (j.fixedSalary.isSome && j.salaryFrom.isNone && j.salaryTo.isNone) ||
  (j.fixedSalary.isNone && j.salaryFrom.isSome && j.salaryTo.isSome)

/-- An Employer-role caller used in concrete instances. -/
def employerA : User := { _id := "employerA1", role := "Employer" }

/-- A second, distinct Employer-role caller. -/
def intruderB : User := { _id := "intruderB2", role := "Employer" }

/-- A Job-Seeker-role caller. -/
def seekerA : User := { _id := "seekerA1", role := "Job Seeker" }

/-- A well-formed document id. -/
def idA : String := "aaaaaaaaaaaaaaaaaaaaaaaa"

/-- A second well-formed document id. -/
def idB : String := "bbbbbbbbbbbbbbbbbbbbbbbb"

/-- The fixed-salary example payload of the spec. -/
def payloadFixed : Payload :=
  { title := "Dev", description := "Build X", category := "Eng"
    country := "US", city := "NY", location := "Office"
    fixedSalary := some 5000, salaryFrom := none, salaryTo := none }

/-- The ranged-salary example payload of the spec. -/
def payloadRanged : Payload :=
  { title := "Dev", description := "Build X", category := "Eng"
    country := "US", city := "NY", location := "Office"
    fixedSalary := none, salaryFrom := some 1000, salaryTo := some 2000 }

/-- A payload carrying a fixed salary together with only the lower end of a
range. -/
def payloadMixedPartial : Payload :=
  { title := "Dev", description := "Build X", category := "Eng"
    country := "US", city := "NY", location := "Office"
    fixedSalary := some 5000, salaryFrom := some 1000, salaryTo := none }

/-- A payload supplying fixedSalary as the number 0 together with a full
range. -/
def payloadZeroFixedRanged : Payload :=
  { title := "Dev", description := "Build X", category := "Eng"
    country := "US", city := "NY", location := "Office"
    fixedSalary := some 0, salaryFrom := some 1000, salaryTo := some 2000 }

/-- A stored job posted by a user named owner1, used in concrete instances. -/
def ownedJob : Job := Job.create payloadFixed "owner1" idA

/-- An update body setting only the title. -/
def hackBody : UpdateBody := { UpdateBody.empty with title := some "Hacked" }

/-- Inversion of a successful create: every branch condition of `postJob` must
have fallen through, and the success carries the created document appended to
the collection. -/
theorem postJob_ok_inv (u : User) (b : Payload) (db : List Job) (newId : String)
    (st : Nat) (j : Job) (db2 : List Job)
    (h : postJob u b db newId = HResult.ok st (j, db2)) :
    u.role ≠ "Job Seeker" ∧ missingRequired b = false ∧
    salaryUnderSpecified b = false ∧ salaryOverSpecified b = false ∧
    db.find? (sameTuple b) = none ∧
    st = 200 ∧ j = Job.create b u._id newId ∧ db2 = db ++ [Job.create b u._id newId] := by
  by_cases hrole : u.role = "Job Seeker"
  · simp [postJob, hrole] at h
  cases hmiss : missingRequired b with
  | true => simp [postJob, hrole, hmiss] at h
  | false =>
  cases hunder : salaryUnderSpecified b with
  | true => simp [postJob, hrole, hmiss, hunder] at h
  | false =>
  cases hover : salaryOverSpecified b with
  | true => simp [postJob, hrole, hmiss, hunder, hover] at h
  | false =>
  cases hfind : db.find? (sameTuple b) with
  | some j0 => simp [postJob, hrole, hmiss, hunder, hover, hfind] at h
  | none =>
    simp [postJob, hrole, hmiss, hunder, hover, hfind] at h
    exact ⟨hrole, rfl, rfl, rfl, rfl, h.1.symm, h.2.1.symm, h.2.2.symm⟩

/-- Claim C1, counterexample: the create request carrying fixedSalary 5000
together with salaryFrom 1000 and no salaryTo is accepted by `postJob`, and
the persisted Job is in neither allowed shape of the spec's invariant — it is
not fixedSalary alone (salaryFrom is also present) and it does not carry both
salaryFrom and salaryTo. -/
theorem c1_salary_invariant_counterexample :
    postJob employerA payloadMixedPartial [] idA =
      HResult.ok 200 (Job.create payloadMixedPartial employerA._id idA,
        [Job.create payloadMixedPartial employerA._id idA])
    ∧ specSalaryInvariant (Job.create payloadMixedPartial employerA._id idA) = false := by
  decide

/-- Claim C1, amended: every Job persisted by an accepted create request has,
reading presence as JS truthiness (supplied and non-zero), at least one full
salary representation — fixedSalary, or both salaryFrom and salaryTo — and not
both full representations; a full representation may however coexist with part
of the other form. -/
theorem c1_salary_shape_amended (u : User) (b : Payload) (db : List Job)
    (newId : String) (st : Nat) (j : Job) (db2 : List Job)
    (h : postJob u b db newId = HResult.ok st (j, db2)) :
    (truthyNum j.fixedSalary || (truthyNum j.salaryFrom && truthyNum j.salaryTo)) = true
    ∧ (truthyNum j.fixedSalary && truthyNum j.salaryFrom && truthyNum j.salaryTo) = false := by
  obtain ⟨-, -, hunder, hover, -, -, hj, -⟩ := postJob_ok_inv u b db newId st j db2 h
  subst hj
  simp only [Job.create] at *
  unfold salaryUnderSpecified at hunder
  unfold salaryOverSpecified at hover
  cases hf : truthyNum b.fixedSalary <;> cases h1 : truthyNum b.salaryFrom <;>
    cases h2 : truthyNum b.salaryTo <;> simp_all

/-- Claim C1, witness for the amended statement at the accepted ranged-salary
request. -/
theorem c1_salary_shape_amended_witness :
    (truthyNum (Job.create payloadRanged employerA._id idA).fixedSalary ||
      (truthyNum (Job.create payloadRanged employerA._id idA).salaryFrom &&
       truthyNum (Job.create payloadRanged employerA._id idA).salaryTo)) = true
    ∧ (truthyNum (Job.create payloadRanged employerA._id idA).fixedSalary &&
       truthyNum (Job.create payloadRanged employerA._id idA).salaryFrom &&
       truthyNum (Job.create payloadRanged employerA._id idA).salaryTo) = false :=
  c1_salary_shape_amended employerA payloadRanged [] idA 200
    (Job.create payloadRanged employerA._id idA)
    [Job.create payloadRanged employerA._id idA] (by decide)

/-- Claim C2, counterexample: a second Employer who is not the owner recorded
in postedBy successfully updates the Job (changing its title) and successfully
deletes it; no ownership comparison happens. -/
theorem c2_ownership_counterexample :
    updateJob intruderB idA hackBody [ownedJob] =
      HResult.ok 200 (applyUpdate hackBody ownedJob, [applyUpdate hackBody ownedJob])
    ∧ (applyUpdate hackBody ownedJob).title = "Hacked"
    ∧ ownedJob.title = "Dev"
    ∧ intruderB._id ≠ ownedJob.postedBy
    ∧ deleteJob intruderB idA [ownedJob] = HResult.ok 200 [] := by
  decide

/-- Claim C2, amended: update and delete check only the caller's role, not
ownership — every update or delete request that succeeds was made by a caller
whose role is not Job Seeker, and the caller's identifier need not equal the
targeted Job's postedBy. -/
theorem c2_mutation_role_amended (u : User) (uid did : String) (b : UpdateBody)
    (dbu dbd : List Job) :
    ((updateJob u uid b dbu).isOk = true → u.role ≠ "Job Seeker")
    ∧ ((deleteJob u did dbd).isOk = true → u.role ≠ "Job Seeker") := by
  constructor
  · intro hok hrole
    simp [updateJob, hrole, HResult.isOk] at hok
  · intro hok hrole
    simp [deleteJob, hrole, HResult.isOk] at hok

/-- Claim C2, witness for the amended statement at the successful non-owner
update. -/
theorem c2_mutation_role_amended_witness :
    (updateJob intruderB idA hackBody [ownedJob]).isOk = true
    ∧ intruderB.role ≠ "Job Seeker" :=
  ⟨by decide,
   (c2_mutation_role_amended intruderB idA idA hackBody [ownedJob] [ownedJob]).1 (by decide)⟩

/-- Claim C3: a create request whose field tuple exactly matches a stored Job
is rejected with the message "Job already exist!", but the ErrorHandler is
constructed without a status code (line 78 passes no second argument, unlike
every other rejection in the file), so the failure does not carry status 400;
the error middleware's default applies instead. -/
theorem c3_duplicate_rejection_no_400 :
    postJob employerA payloadRanged [Job.create payloadRanged "owner1" idB] idA =
      HResult.err { message := "Job already exist!", statusCode := none }
    ∧ (ErrorHandler.statusCode { message := "Job already exist!", statusCode := none }) ≠ some 400 := by
  decide

/-- Claim C4: the cookie helper does set an HTTP-only cookie named token
holding the signed session token and respond with the given status and the
success/user/message/token body, but the expiration is an Invalid Date for
every environment: the source reads the nonexistent process property
envCOOKIE_EXPIRE (instead of env.COOKIE_EXPIRE), so the arithmetic yields NaN,
never the configured number of days from now. -/
theorem c4_cookie_expiry_invalid (user : User) (sc : Nat) (msg : String)
    (env : List (String × String)) (now : Int) :
    (sendResponseToken user sc msg env now).cookie.name = "token"
    ∧ (sendResponseToken user sc msg env now).cookie.options.httpOnly = true
    ∧ (sendResponseToken user sc msg env now).cookie.value = getJWTtoken user
    ∧ (sendResponseToken user sc msg env now).status = sc
    ∧ (sendResponseToken user sc msg env now).success = true
    ∧ (sendResponseToken user sc msg env now).user = user
    ∧ (sendResponseToken user sc msg env now).message = msg
    ∧ (sendResponseToken user sc msg env now).token = getJWTtoken user
    ∧ (sendResponseToken user sc msg env now).cookie.options.expiresIn = JDate.invalid :=
  ⟨rfl, rfl, rfl, rfl, rfl, rfl, rfl, rfl, rfl⟩

/-- Claim C5: every request to create, list-my-jobs, update, or delete whose
caller has role Job Seeker is rejected with status 400 before anything else is
inspected, and since each handler returns an error rather than a new
collection, no database write happens. -/
theorem c5_jobseeker_rejected_400 (u : User) (b : Payload) (newId jid did : String)
    (ub : UpdateBody) (db1 db2 db3 db4 : List Job)
    (h : u.role = "Job Seeker") :
    postJob u b db1 newId =
      HResult.err { message := "Job Seeker not allowed to access this resource.", statusCode := some 400 }
    ∧ getMyJobs u db2 =
      HResult.err { message := "Job Seeker not allowed to access this resource.", statusCode := some 400 }
    ∧ updateJob u jid ub db3 =
      HResult.err { message := "Opps Job not found!.", statusCode := some 400 }
    ∧ deleteJob u did db4 =
      HResult.err { message := "Job Seeker not allowed to access this resource.", statusCode := some 400 } := by
  refine ⟨?_, ?_, ?_, ?_⟩ <;> simp [postJob, getMyJobs, updateJob, deleteJob, h]

/-- Claim C5, witness at a concrete Job-Seeker caller. -/
theorem c5_jobseeker_rejected_400_witness :
    seekerA.role = "Job Seeker"
    ∧ (postJob seekerA payloadFixed [] idA =
        HResult.err { message := "Job Seeker not allowed to access this resource.", statusCode := some 400 }
      ∧ getMyJobs seekerA [] =
        HResult.err { message := "Job Seeker not allowed to access this resource.", statusCode := some 400 }
      ∧ updateJob seekerA idA UpdateBody.empty [] =
        HResult.err { message := "Opps Job not found!.", statusCode := some 400 }
      ∧ deleteJob seekerA idA [] =
        HResult.err { message := "Job Seeker not allowed to access this resource.", statusCode := some 400 }) :=
  ⟨rfl, c5_jobseeker_rejected_400 seekerA payloadFixed idA idA idA UpdateBody.empty [] [] [] [] rfl⟩

/-- Claim C6: a valid Employer create request — required fields truthy, salary
shape neither under- nor over-specified, no stored Job matching the tuple —
succeeds with status 200, persists the created document by appending it to the
collection, and the document's postedBy is the caller's identifier while every
payload field is stored unchanged. -/
theorem c6_create_success (u : User) (b : Payload) (db : List Job) (newId : String)
    (hrole : u.role ≠ "Job Seeker")
    (hreq : missingRequired b = false)
    (hunder : salaryUnderSpecified b = false)
    (hover : salaryOverSpecified b = false)
    (hdup : db.find? (sameTuple b) = none) :
    postJob u b db newId =
      HResult.ok 200 (Job.create b u._id newId, db ++ [Job.create b u._id newId])
    ∧ (Job.create b u._id newId).postedBy = u._id
    ∧ (Job.create b u._id newId).title = b.title
    ∧ (Job.create b u._id newId).description = b.description
    ∧ (Job.create b u._id newId).category = b.category
    ∧ (Job.create b u._id newId).country = b.country
    ∧ (Job.create b u._id newId).city = b.city
    ∧ (Job.create b u._id newId).location = b.location
    ∧ (Job.create b u._id newId).fixedSalary = b.fixedSalary
    ∧ (Job.create b u._id newId).salaryFrom = b.salaryFrom
    ∧ (Job.create b u._id newId).salaryTo = b.salaryTo := by
  refine ⟨?_, rfl, rfl, rfl, rfl, rfl, rfl, rfl, rfl, rfl, rfl⟩
  simp [postJob, hrole, hreq, hunder, hover, hdup]

/-- Claim C6, witness at the spec's fixed-salary example payload on an empty
collection. -/
theorem c6_create_success_witness :
    postJob employerA payloadFixed [] idA =
      HResult.ok 200 (Job.create payloadFixed employerA._id idA,
        [] ++ [Job.create payloadFixed employerA._id idA])
    ∧ (Job.create payloadFixed employerA._id idA).postedBy = employerA._id :=
  ⟨(c6_create_success employerA payloadFixed [] idA (by decide) rfl rfl rfl rfl).1,
   (c6_create_success employerA payloadFixed [] idA (by decide) rfl rfl rfl rfl).2.1⟩

/-- Claim C7, counterexample: a payload supplying fixedSalary as the number 0
together with a full range has both salary forms present as fields, yet the
create succeeds with 200 instead of responding 400, because the code tests JS
truthiness and 0 is falsy. -/
theorem c7_salary_400_counterexample :
    (payloadZeroFixedRanged.fixedSalary.isSome
      && payloadZeroFixedRanged.salaryFrom.isSome
      && payloadZeroFixedRanged.salaryTo.isSome) = true
    ∧ postJob employerA payloadZeroFixedRanged [] idA =
        HResult.ok 200 (Job.create payloadZeroFixedRanged employerA._id idA,
          [Job.create payloadZeroFixedRanged employerA._id idA]) := by
  decide

/-- Claim C7, amended: with presence read as JS truthiness (supplied and
non-zero), every Employer create request whose salary fields are under- or
over-specified is rejected with status 400. -/
theorem c7_salary_400_amended (u : User) (b : Payload) (db : List Job) (newId : String)
    (hrole : u.role ≠ "Job Seeker")
    (hbad : salaryUnderSpecified b = true ∨ salaryOverSpecified b = true) :
    ∃ e, postJob u b db newId = HResult.err e ∧ e.statusCode = some 400 := by
  cases hreq : missingRequired b with
  | true =>
    exact ⟨{ message := "Please provide full job details.", statusCode := some 400 },
      by simp [postJob, hrole, hreq], rfl⟩
  | false =>
    cases hund : salaryUnderSpecified b with
    | true =>
      exact ⟨{ message := "Please either provide fixed salary or ranged salary.", statusCode := some 400 },
        by simp [postJob, hrole, hreq, hund], rfl⟩
    | false =>
      cases hbad with
      | inl hu => exact absurd hu (by simp [hund])
      | inr ho =>
        exact ⟨{ message := "Cannot Enter Fixed and Ranged Salary together.", statusCode := some 400 },
          by simp [postJob, hrole, hreq, hund, ho], rfl⟩

/-- Claim C7, witness for the amended statement: fixedSalary together with a
full truthy range is rejected with 400. -/
theorem c7_salary_400_amended_witness :
    ∃ e, postJob employerA
        { payloadFixed with salaryFrom := some 1000, salaryTo := some 2000 } [] idA =
        HResult.err e ∧ e.statusCode = some 400 :=
  c7_salary_400_amended employerA
    { payloadFixed with salaryFrom := some 1000, salaryTo := some 2000 } [] idA
    (by decide) (Or.inr (by decide))

/-- Claim C8, counterexample: the handler's messages carry different strings
than the claim's quoted ones — a malformed id yields the message
"Invalid ID / CastError!", not "Invalid ID", and a missing document yields
"Job not found!", not "Job not found" (both still with status 404). -/
theorem c8_message_counterexample :
    getSingleJob "zz" [] =
      HResult.err { message := "Invalid ID / CastError!", statusCode := some 404 }
    ∧ "Invalid ID / CastError!" ≠ "Invalid ID"
    ∧ getSingleJob idA [] =
      HResult.err { message := "Job not found!", statusCode := some 404 }
    ∧ "Job not found!" ≠ "Job not found" := by
  decide

/-- Claim C8, amended: a malformed id yields 404 with message
"Invalid ID / CastError!", a well-formed id with no matching Job yields 404
with message "Job not found!", and a well-formed id whose Job exists yields
200 with the record. -/
theorem c8_get_single_amended (id : String) (db : List Job) :
    (validObjectId id = false →
      getSingleJob id db =
        HResult.err { message := "Invalid ID / CastError!", statusCode := some 404 })
    ∧ (validObjectId id = true → db.find? (fun j => j._id == id) = none →
      getSingleJob id db =
        HResult.err { message := "Job not found!", statusCode := some 404 })
    ∧ ∀ j, validObjectId id = true → db.find? (fun j2 => j2._id == id) = some j →
      getSingleJob id db = HResult.ok 200 j := by
  refine ⟨?_, ?_, ?_⟩
  · intro hv
    simp [getSingleJob, findById, hv]
  · intro hv hf
    simp [getSingleJob, findById, hv, hf]
  · intro j hv hf
    simp [getSingleJob, findById, hv, hf]

/-- Claim C8, witness for the amended statement on each of the three cases. -/
theorem c8_get_single_amended_witness :
    getSingleJob "zz" [] =
      HResult.err { message := "Invalid ID / CastError!", statusCode := some 404 }
    ∧ getSingleJob idB [] =
      HResult.err { message := "Job not found!", statusCode := some 404 }
    ∧ getSingleJob idA [ownedJob] = HResult.ok 200 ownedJob :=
  ⟨(c8_get_single_amended "zz" []).1 (by decide),
   (c8_get_single_amended idB []).2.1 (by decide) rfl,
   (c8_get_single_amended idA [ownedJob]).2.2 ownedJob (by decide) (by decide)⟩

/-- A stored job whose expired flag is set, used in concrete instances. -/
def expiredJob : Job := { Job.create payloadRanged "owner1" idB with expired := true }

/-- Claim C9: the list-active-jobs operation answers 200 with exactly the
stored Jobs whose expired field is false — every such Job is included and
every returned Job is a stored Job with expired false. -/
theorem c9_active_jobs_exact (db : List Job) :
    ∃ jobs, getAllJobs db = HResult.ok 200 jobs
      ∧ (∀ j, j ∈ db → j.expired = false → j ∈ jobs)
      ∧ (∀ j, j ∈ jobs → j ∈ db ∧ j.expired = false) := by
  refine ⟨db.filter (fun j => !j.expired), rfl, ?_, ?_⟩
  · intro j hmem hexp
    simp [List.mem_filter, hmem, hexp]
  · intro j hmem
    rw [List.mem_filter] at hmem
    refine ⟨hmem.1, ?_⟩
    simpa using hmem.2

/-- Claim C9, witness on a collection holding one active and one expired
Job. -/
theorem c9_active_jobs_exact_witness :
    ∃ jobs, getAllJobs [ownedJob, expiredJob] = HResult.ok 200 jobs
      ∧ (∀ j, j ∈ [ownedJob, expiredJob] → j.expired = false → j ∈ jobs)
      ∧ (∀ j, j ∈ jobs → j ∈ [ownedJob, expiredJob] ∧ j.expired = false) :=
  c9_active_jobs_exact [ownedJob, expiredJob]

/-- Claim C10: the create operation treats a salary value of 0 as absent — an
Employer request with fixedSalary 0 and no range, or with salaryFrom 0, or
with salaryTo 0, is rejected 400 with the under-specified-salary message even
though a numeric salary value was supplied. -/
theorem c10_zero_salary_absent (u : User) (b1 b2 b3 : Payload)
    (db1 db2 db3 : List Job) (n1 n2 n3 : String)
    (hrole : u.role ≠ "Job Seeker")
    (h1 : b1.fixedSalary = some 0) (h1f : b1.salaryFrom = none) (h1t : b1.salaryTo = none)
    (hr1 : missingRequired b1 = false)
    (h2 : b2.salaryFrom = some 0) (h2x : b2.fixedSalary = none)
    (hr2 : missingRequired b2 = false)
    (h3 : b3.salaryTo = some 0) (h3x : b3.fixedSalary = none)
    (hr3 : missingRequired b3 = false) :
    postJob u b1 db1 n1 =
      HResult.err { message := "Please either provide fixed salary or ranged salary.", statusCode := some 400 }
    ∧ postJob u b2 db2 n2 =
      HResult.err { message := "Please either provide fixed salary or ranged salary.", statusCode := some 400 }
    ∧ postJob u b3 db3 n3 =
      HResult.err { message := "Please either provide fixed salary or ranged salary.", statusCode := some 400 } := by
  refine ⟨?_, ?_, ?_⟩
  · have hu : salaryUnderSpecified b1 = true := by
      simp [salaryUnderSpecified, truthyNum, h1, h1f, h1t]
    simp [postJob, hrole, hr1, hu]
  · have hu : salaryUnderSpecified b2 = true := by
      simp [salaryUnderSpecified, truthyNum, h2, h2x]
    simp [postJob, hrole, hr2, hu]
  · have hu : salaryUnderSpecified b3 = true := by
      simp [salaryUnderSpecified, truthyNum, h3, h3x]
    simp [postJob, hrole, hr3, hu]

/-- Claim C10, witness at concrete zero-salary payloads. -/
theorem c10_zero_salary_absent_witness :
    postJob employerA { payloadFixed with fixedSalary := some 0 } [] idA =
      HResult.err { message := "Please either provide fixed salary or ranged salary.", statusCode := some 400 }
    ∧ postJob employerA { payloadRanged with salaryFrom := some 0 } [] idA =
      HResult.err { message := "Please either provide fixed salary or ranged salary.", statusCode := some 400 }
    ∧ postJob employerA { payloadRanged with salaryTo := some 0 } [] idA =
      HResult.err { message := "Please either provide fixed salary or ranged salary.", statusCode := some 400 } :=
  c10_zero_salary_absent employerA
    { payloadFixed with fixedSalary := some 0 }
    { payloadRanged with salaryFrom := some 0 }
    { payloadRanged with salaryTo := some 0 }
    [] [] [] idA idA idA
    (by decide) rfl rfl rfl (by decide) rfl rfl (by decide) rfl rfl (by decide)

end JobBucket
